import Mathlib

/-!
Shallow embedding of the radar animation engine and the radar metadata
endpoint of this repository.

Engine source: `src/app/src/routes/+page.svelte` (RainViewer overlay
animation: `togglePlayPause`, `nextFrame`, `loadRainViewerData`).
Geometry / metadata source: `src/app/src/routes/api/radar/+server.ts`
(`calculateRadarBounds`, the `GET` handler with `metadata=true`).

The Svelte component keeps its state in module-level mutable variables
(`radarLayers`, `animationPosition`, `animationTimer`, `isPlaying`) and in
the MapLibre map's layer set (each radar layer's `visibility` layout
property).  The embedding folds the map-side visibility of each overlay
into the engine's layer record (the layer ids `radar-layer-i` are distinct
per index, and the engine is the only writer of their visibility), and
makes the JavaScript timer machinery explicit: `setInterval` allocates a
fresh timer id and records it as active, `clearInterval h` removes the
specific id `h` from the active set (a no-op when `h` is `null` or already
cleared, exactly as in JS), and `setTimeout` records a pending one-shot
timer together with the requested delay.
-/

/-- One mounted radar overlay: the map layer `radar-layer-<id>` plus its
frame timestamp (`radarLayers` entries) and its current map-side
`visibility` layout property. -/
structure OverlayLayer where
  id : Nat
  time : Int
  visible : Bool
deriving DecidableEq, Repr

/-- The whole mutable state of the animation engine: the module-level
variables of `+page.svelte` plus the explicit timer bookkeeping described
above.  `activeIntervals` is the set of not-yet-cleared `setInterval`
timers created with `nextFrame`; `pendingRestarts` the pending restart
`setTimeout`s with their requested delay; `pendingReloads` the pending
`loadRainViewerData` `setTimeout`s with their requested delay. -/
structure EngineState where
  radarLayers : List OverlayLayer
  animationPosition : Nat
  isPlaying : Bool
  animationTimer : Option Nat
  activeIntervals : List Nat
  pendingRestarts : List (Nat × Int)
  pendingReloads : List (Nat × Int)
  nextTimerId : Nat
deriving DecidableEq, Repr

/-- `const FRAME_COUNT = 1` in `+page.svelte`. -/
def FRAME_COUNT : Nat := 1

/-- `const FRAME_DELAY = 1500` (ms between frames). -/
def FRAME_DELAY : Int := 1500

/-- `const RESTART_DELAY = 1000` (ms before restarting the animation). -/
def RESTART_DELAY : Int := 1000

/-- The normal manifest refresh interval, `5 * 60 * 1000` ms. -/
def REFRESH_INTERVAL : Int := 5 * 60 * 1000

/-- The retry backoff after a failed manifest fetch, `30 * 1000` ms. -/
def RETRY_DELAY : Int := 30 * 1000

/-- HTML timer semantics: `setTimeout` clamps a negative requested delay
to `0`, so a non-positive delay fires on the next event-loop turn. -/
def effectiveDelay (d : Int) : Int := max d 0

/-- `clearInterval(animationTimer)`: removes the referenced interval from
the active set; a `null` handle or an already-cleared id does nothing. -/
def removeHandle (ids : List Nat) (h : Option Nat) : List Nat :=
  match h with
  | none => ids
  | some t => ids.filter (fun i => i != t)

/-- `animationTimer = setInterval(nextFrame, FRAME_DELAY)`: allocate a
fresh timer id, mark it active, store it in `animationTimer`. -/
def startAdvanceTimer (s : EngineState) : EngineState :=
  { s with
    animationTimer := some s.nextTimerId
    activeIntervals := s.activeIntervals ++ [s.nextTimerId]
    nextTimerId := s.nextTimerId + 1 }

/-- `setTimeout(loadRainViewerData, d)`: record a pending reload timer
with the requested delay `d`. -/
def scheduleReload (d : Int) (s : EngineState) : EngineState :=
  { s with
    pendingReloads := s.pendingReloads ++ [(s.nextTimerId, d)]
    nextTimerId := s.nextTimerId + 1 }

/-- `map.setLayoutProperty(radarLayers[idx].id, 'visibility', ...)`:
update the visibility of the overlay at position `idx`; out of range, the
source's `if (radarLayers[idx])` guard makes it a no-op. -/
def setVis : List OverlayLayer → Nat → Bool → List OverlayLayer
  | [], _, _ => []
  | l :: ls, 0, v => { l with visible := v } :: ls
  | l :: ls, n + 1, v => l :: setVis ls n v

/-- The `radarFrames.forEach((frame, index) => ...)` loop of
`loadRainViewerData`: layer `radar-layer-<index>` is created for frame
`index` with map visibility `index === 0 ? 'visible' : 'none'`. -/
def mkLayers : List Int → Nat → List OverlayLayer
  | [], _ => []
  | t :: ts, i => ⟨i, t, i == 0⟩ :: mkLayers ts (i + 1)

/-- `togglePlayPause()`: flip `isPlaying`; when now playing (i.e. the
engine was paused) start a fresh advance interval, otherwise clear the
stored interval handle. -/
def togglePlayPause (s : EngineState) : EngineState :=
  if !s.isPlaying then
    startAdvanceTimer { s with isPlaying := !s.isPlaying }
  else
    { s with
      isPlaying := !s.isPlaying
      activeIntervals := removeHandle s.activeIntervals s.animationTimer }

/-- `nextFrame()`: on an empty sequence return immediately; otherwise hide
the current layer, advance `animationPosition` modulo the sequence length,
show the new current layer, and if the new position is the last index,
clear the advance interval and schedule a restart `setTimeout` with delay
`RESTART_DELAY - FRAME_DELAY`.  (The DOM timestamp/progress-bar updates
have no engine-state effect and are not modelled.) -/
def nextFrame (s : EngineState) : EngineState :=
  if s.radarLayers.length = 0 then s
  else if (s.animationPosition + 1) % s.radarLayers.length = s.radarLayers.length - 1 then
    { s with
      radarLayers := setVis (setVis s.radarLayers s.animationPosition false)
        ((s.animationPosition + 1) % s.radarLayers.length) true
      animationPosition := (s.animationPosition + 1) % s.radarLayers.length
      activeIntervals := removeHandle s.activeIntervals s.animationTimer
      pendingRestarts := s.pendingRestarts ++ [(s.nextTimerId, RESTART_DELAY - FRAME_DELAY)]
      nextTimerId := s.nextTimerId + 1 }
  else
    { s with
      radarLayers := setVis (setVis s.radarLayers s.animationPosition false)
        ((s.animationPosition + 1) % s.radarLayers.length) true
      animationPosition := (s.animationPosition + 1) % s.radarLayers.length }

/-- The restart `setTimeout` callback firing: the pending timer `tid` is
consumed, and `if (isPlaying)` a fresh advance interval is started. -/
def fireRestart (s : EngineState) (tid : Nat) : EngineState :=
  if s.isPlaying then
    startAdvanceTimer
      { s with pendingRestarts := s.pendingRestarts.filter (fun p => p.1 != tid) }
  else
    { s with pendingRestarts := s.pendingRestarts.filter (fun p => p.1 != tid) }

/-- The success path of `loadRainViewerData`, with the trim count `k` as a
parameter (the source fixes `k = FRAME_COUNT`; the spec treats
`FRAME_COUNT` as a configuration constant, so the theorems quantify over
`k ≥ 1`): remove all existing overlay layers and sources, take
`data.radar.past.slice(-k)` (for `k ≥ 1` this is `drop (length - k)`, the
most recent `min length k` frames in upstream order), mount them with only
index 0 visible, reset `animationPosition = 0`, `if (isPlaying)` clear and
restart the advance interval, and schedule the next reload after
`REFRESH_INTERVAL`. -/
def loadRainViewerSuccessWith (k : Nat) (s : EngineState) (past : List Int) : EngineState :=
  scheduleReload REFRESH_INTERVAL
    (if s.isPlaying then
      startAdvanceTimer
        { s with
          radarLayers := mkLayers (past.drop (past.length - k)) 0
          animationPosition := 0
          activeIntervals := removeHandle s.activeIntervals s.animationTimer }
    else
      { s with
        radarLayers := mkLayers (past.drop (past.length - k)) 0
        animationPosition := 0 })

/-- `loadRainViewerData` as written, with the source's `FRAME_COUNT`. -/
def loadRainViewerSuccess (s : EngineState) (past : List Int) : EngineState :=
  loadRainViewerSuccessWith FRAME_COUNT s past

/-- The `.catch` branch of `loadRainViewerData` for a failed manifest
fetch (`fetch` rejection or `res.json()` failure, both of which happen
before the success handler touches any layer): log, and
`setTimeout(loadRainViewerData, 30 * 1000)` — nothing else changes. -/
def loadRainViewerFailure (s : EngineState) : EngineState :=
  scheduleReload RETRY_DELAY s

/-- Engine state at component mount, before the first load: no layers, no
timers, `animationPosition = 0`, `isPlaying = true`, `animationTimer`
still `null`. -/
def initState : EngineState :=
  ⟨[], 0, true, none, [], [], [], 0⟩

/-- Map-side visibility of the overlay sequence, in order. -/
def visMap (s : EngineState) : List Bool :=
  s.radarLayers.map OverlayLayer.visible

/-- Number of overlay layers whose map visibility is `'visible'`. -/
def visibleCount (s : EngineState) : Nat :=
  (visMap s).count true

/-- A length-`L` visibility vector with `true` exactly at position `p`. -/
def oneHot (p L : Nat) : List Bool :=
  (List.replicate L false).set p true

/-- The engine's visibility invariant: the position is in range and the
layer at `animationPosition` is the unique visible one. -/
def posInv (s : EngineState) : Prop :=
  s.animationPosition < s.radarLayers.length ∧
    visMap s = oneHot s.animationPosition s.radarLayers.length

/-- States reachable from mount by the engine's event handlers on the
single-threaded event loop: an active advance interval firing, a pending
restart timeout firing, a Play/Pause click, and a manifest load completing
with success or failure. -/
inductive Reach : EngineState → Prop
  | init : Reach initState
  | advance {s : EngineState} (tid : Nat) (h : tid ∈ s.activeIntervals)
      (hs : Reach s) : Reach (nextFrame s)
  | restartFire {s : EngineState} (tid : Nat) (d : Int)
      (h : (tid, d) ∈ s.pendingRestarts) (hs : Reach s) : Reach (fireRestart s tid)
  | toggle {s : EngineState} (hs : Reach s) : Reach (togglePlayPause s)
  | reloadOk {s : EngineState} (past : List Int) (hs : Reach s) :
      Reach (loadRainViewerSuccess s past)
  | reloadErr {s : EngineState} (hs : Reach s) : Reach (loadRainViewerFailure s)

/-- Restricted traces: Play/Pause clicks and manifest load completions
are only delivered while no restart timeout is pending. -/
inductive ReachSafe : EngineState → Prop
  | init : ReachSafe initState
  | advance {s : EngineState} (tid : Nat) (h : tid ∈ s.activeIntervals)
      (hs : ReachSafe s) : ReachSafe (nextFrame s)
  | restartFire {s : EngineState} (tid : Nat) (d : Int)
      (h : (tid, d) ∈ s.pendingRestarts) (hs : ReachSafe s) :
      ReachSafe (fireRestart s tid)
  | toggle {s : EngineState} (hg : s.pendingRestarts = []) (hs : ReachSafe s) :
      ReachSafe (togglePlayPause s)
  | reloadOk {s : EngineState} (past : List Int) (hg : s.pendingRestarts = [])
      (hs : ReachSafe s) : ReachSafe (loadRainViewerSuccess s past)
  | reloadErr {s : EngineState} (hs : ReachSafe s) :
      ReachSafe (loadRainViewerFailure s)

/-- Timer bookkeeping invariant: at most one advance interval is active
and `animationTimer` holds its id, the advance and restart timers are
never simultaneously active, at most one restart is pending, and a paused
engine has no active interval. -/
def timerInv (s : EngineState) : Prop :=
  (s.activeIntervals = [] ∨
    ∃ t, s.animationTimer = some t ∧ s.activeIntervals = [t]) ∧
  (s.activeIntervals = [] ∨ s.pendingRestarts = []) ∧
  s.pendingRestarts.length ≤ 1 ∧
  (s.isPlaying = false → s.activeIntervals = [])

/-- A concrete unrestricted trace: load one frame, the interval fires
(scheduling the restart timeout), then Play/Pause is clicked twice while
that restart timeout is still pending. -/
def badTrace : EngineState :=
  togglePlayPause (togglePlayPause (nextFrame (loadRainViewerSuccess initState [100])))

/-- `calculateRadarBounds(lat, lon, rangeKm)` from
`src/app/src/routes/api/radar/+server.ts`, over the reals (the source
computes in IEEE doubles with `Math.cos`; the embedding idealises the
arithmetic as exact real arithmetic).  The source also computes `lonRad`
and `angDist = rangeKm / earthRadius`, but never uses them.  Returns
`[[minLon, minLat], [maxLon, maxLat]]`. -/
noncomputable def calculateRadarBounds (lat lon rangeKm : ℝ) : (ℝ × ℝ) × (ℝ × ℝ) :=
  let latRad := lat * Real.pi / 180
  let minLat := lat - rangeKm / 111.32
  let maxLat := lat + rangeKm / 111.32
  let lonDegreesPerKm := 111.32 * Real.cos latRad
  let lonOffset := rangeKm / lonDegreesPerKm
  let minLon := lon - lonOffset
  let maxLon := lon + lonOffset
  ((minLon, minLat), (maxLon, maxLat))

/-- Station header fields of the decoded `Level2Radar` object that the
metadata endpoint reads (`radar.header.icao`, `.latitude`, `.longitude`,
`.elevationMeters`). -/
structure RadarHeader where
  icao : String
  latitude : ℝ
  longitude : ℝ
  elevationMeters : ℝ

/-- The decoded `Level2Radar` object: the header plus the remaining
decoded volume-scan payload, which the metadata endpoint never inspects
and returns wholesale (modelled as the raw sweep sample data). -/
structure Level2Radar where
  header : RadarHeader
  sweeps : List (List ℝ)

/-- Shape of the JSON body returned by the `GET` handler when
`metadata=true`. -/
structure MetadataResponse where
  success : Bool
  stationId : String
  stationName : String
  latitude : ℝ
  longitude : ℝ
  elevationMeters : ℝ
  radar : Level2Radar
  bounds : (ℝ × ℝ) × (ℝ × ℝ)

/-- The `metadataOnly` branch of the `GET` handler in
`src/app/src/routes/api/radar/+server.ts`, applied to a successfully
decoded `Level2Radar`. -/
noncomputable def radarMetadataGET (radar : Level2Radar) : MetadataResponse :=
  { success := true
    stationId := radar.header.icao
    stationName := radar.header.icao
    latitude := radar.header.latitude
    longitude := radar.header.longitude
    elevationMeters := radar.header.elevationMeters
    radar := radar
    bounds := calculateRadarBounds radar.header.latitude radar.header.longitude 230 }

/-! ### List-level helper lemmas -/

theorem length_setVis (l : List OverlayLayer) (i : Nat) (v : Bool) :
    (setVis l i v).length = l.length := by
  induction l generalizing i with
  | nil => rfl
  | cons a l ih =>
    cases i with
    | zero => rfl
    | succ n => simpa [setVis] using ih n

theorem map_visible_setVis (l : List OverlayLayer) (i : Nat) (v : Bool) :
    (setVis l i v).map OverlayLayer.visible = (l.map OverlayLayer.visible).set i v := by
  induction l generalizing i with
  | nil => rfl
  | cons a l ih =>
    cases i with
    | zero => rfl
    | succ n => simp [setVis, ih n]

theorem list_set_set {α : Type} (l : List α) (n : Nat) (a b : α) :
    (l.set n a).set n b = l.set n b := by
  induction l generalizing n with
  | nil => rfl
  | cons x l ih =>
    cases n with
    | zero => rfl
    | succ n => simp [List.set, ih n]

theorem set_replicate_self (n p : Nat) (b : Bool) :
    (List.replicate n b).set p b = List.replicate n b := by
  induction n generalizing p with
  | zero => rfl
  | succ n ih =>
    cases p with
    | zero => simp [List.replicate_succ]
    | succ p => simp [List.replicate_succ, ih p]

theorem oneHot_set_false (p L : Nat) :
    (oneHot p L).set p false = List.replicate L false := by
  unfold oneHot
  rw [list_set_set]
  exact set_replicate_self L p false

theorem count_true_replicate_false (n : Nat) :
    (List.replicate n false).count true = 0 := by
  induction n with
  | zero => rfl
  | succ n ih => simp [List.replicate_succ, List.count_cons, ih]

theorem count_oneHot (p L : Nat) (h : p < L) : (oneHot p L).count true = 1 := by
  induction L generalizing p with
  | zero => omega
  | succ L ih =>
    cases p with
    | zero =>
      simp [oneHot, List.replicate_succ, List.count_cons, count_true_replicate_false]
    | succ p =>
      have hp : p < L := by omega
      have : oneHot (p + 1) (L + 1) = false :: oneHot p L := by
        simp [oneHot, List.replicate_succ]
      rw [this, List.count_cons]
      simp [ih p hp]

theorem length_mkLayers (ts : List Int) (i : Nat) :
    (mkLayers ts i).length = ts.length := by
  induction ts generalizing i with
  | nil => rfl
  | cons t ts ih => simpa [mkLayers] using ih (i + 1)

theorem map_time_mkLayers (ts : List Int) (i : Nat) :
    (mkLayers ts i).map OverlayLayer.time = ts := by
  induction ts generalizing i with
  | nil => rfl
  | cons t ts ih => simp [mkLayers, ih (i + 1)]

theorem map_visible_mkLayers_pos (ts : List Int) (i : Nat) :
    (mkLayers ts (i + 1)).map OverlayLayer.visible = List.replicate ts.length false := by
  induction ts generalizing i with
  | nil => rfl
  | cons t ts ih =>
    have hb : ((i + 1 : Nat) == 0) = false := rfl
    simp [mkLayers, hb, List.replicate_succ, ih (i + 1)]

theorem map_visible_mkLayers (ts : List Int) :
    (mkLayers ts 0).map OverlayLayer.visible = oneHot 0 ts.length := by
  cases ts with
  | nil => rfl
  | cons t ts =>
    simp [mkLayers, oneHot, List.replicate_succ, map_visible_mkLayers_pos ts 0]

/-! ### Engine-level helper lemmas -/

theorem nextFrame_empty (s : EngineState) (h : s.radarLayers.length = 0) :
    nextFrame s = s := by
  simp [nextFrame, h]

theorem nextFrame_radarLayers (s : EngineState) (h : ¬ s.radarLayers.length = 0) :
    (nextFrame s).radarLayers =
      setVis (setVis s.radarLayers s.animationPosition false)
        ((s.animationPosition + 1) % s.radarLayers.length) true := by
  rw [nextFrame, if_neg h]
  split <;> rfl

theorem nextFrame_pos (s : EngineState) (h : ¬ s.radarLayers.length = 0) :
    (nextFrame s).animationPosition = (s.animationPosition + 1) % s.radarLayers.length := by
  rw [nextFrame, if_neg h]
  split <;> rfl

theorem nextFrame_isPlaying (s : EngineState) : (nextFrame s).isPlaying = s.isPlaying := by
  rw [nextFrame]
  split
  · rfl
  · split <;> rfl

theorem nextFrame_animationTimer (s : EngineState) :
    (nextFrame s).animationTimer = s.animationTimer := by
  rw [nextFrame]
  split
  · rfl
  · split <;> rfl

theorem nextFrame_pendingReloads (s : EngineState) :
    (nextFrame s).pendingReloads = s.pendingReloads := by
  rw [nextFrame]
  split
  · rfl
  · split <;> rfl

theorem nextFrame_timers_last (s : EngineState) (h : ¬ s.radarLayers.length = 0)
    (hlast : (s.animationPosition + 1) % s.radarLayers.length = s.radarLayers.length - 1) :
    (nextFrame s).activeIntervals = removeHandle s.activeIntervals s.animationTimer ∧
      (nextFrame s).pendingRestarts =
        s.pendingRestarts ++ [(s.nextTimerId, RESTART_DELAY - FRAME_DELAY)] := by
  rw [nextFrame, if_neg h]
  simp only [hlast, if_pos rfl]
  exact ⟨rfl, rfl⟩

theorem nextFrame_timers_notlast (s : EngineState) (h : ¬ s.radarLayers.length = 0)
    (hlast : ¬ (s.animationPosition + 1) % s.radarLayers.length = s.radarLayers.length - 1) :
    (nextFrame s).activeIntervals = s.activeIntervals ∧
      (nextFrame s).pendingRestarts = s.pendingRestarts := by
  rw [nextFrame, if_neg h, if_neg hlast]
  exact ⟨rfl, rfl⟩

theorem load_radarLayers (k : Nat) (s : EngineState) (past : List Int) :
    (loadRainViewerSuccessWith k s past).radarLayers =
      mkLayers (past.drop (past.length - k)) 0 := by
  rw [loadRainViewerSuccessWith]
  split <;> rfl

theorem load_pos (k : Nat) (s : EngineState) (past : List Int) :
    (loadRainViewerSuccessWith k s past).animationPosition = 0 := by
  rw [loadRainViewerSuccessWith]
  split <;> rfl

theorem load_isPlaying (k : Nat) (s : EngineState) (past : List Int) :
    (loadRainViewerSuccessWith k s past).isPlaying = s.isPlaying := by
  rw [loadRainViewerSuccessWith]
  split <;> rfl

theorem load_pendingRestarts (k : Nat) (s : EngineState) (past : List Int) :
    (loadRainViewerSuccessWith k s past).pendingRestarts = s.pendingRestarts := by
  rw [loadRainViewerSuccessWith]
  split <;> rfl

/-! ### The visibility invariant -/

theorem posInv_load (k : Nat) (s : EngineState) (past : List Int)
    (hk : 1 ≤ k) (hp : past ≠ []) : posInv (loadRainViewerSuccessWith k s past) := by
  have hlen : (past.drop (past.length - k)).length = past.length - (past.length - k) :=
    List.length_drop _ _
  have hpos : 0 < (past.drop (past.length - k)).length := by
    rw [hlen]
    have : 0 < past.length := List.length_pos.mpr hp
    omega
  constructor
  · rw [load_pos, load_radarLayers, length_mkLayers]
    exact hpos
  · rw [visMap, load_pos, load_radarLayers, length_mkLayers]
    exact map_visible_mkLayers _

theorem posInv_nextFrame (s : EngineState) (h : posInv s) : posInv (nextFrame s) := by
  obtain ⟨hpos, hmap⟩ := h
  have hL : ¬ s.radarLayers.length = 0 := by omega
  have hv : s.radarLayers.map OverlayLayer.visible =
      oneHot s.animationPosition s.radarLayers.length := hmap
  constructor
  · rw [nextFrame_radarLayers s hL, length_setVis, length_setVis, nextFrame_pos s hL]
    exact Nat.mod_lt _ (by omega)
  · rw [visMap, nextFrame_radarLayers s hL, map_visible_setVis, map_visible_setVis,
      nextFrame_pos s hL, length_setVis, length_setVis, hv, oneHot_set_false]
    rfl

theorem visibleCount_of_posInv (s : EngineState) (h : posInv s) : visibleCount s = 1 := by
  obtain ⟨hpos, hmap⟩ := h
  rw [visibleCount, hmap]
  exact count_oneHot _ _ hpos

/-! ### Claim theorems -/

/-- C1: once the overlay sequence is non-empty, exactly one `OverlayLayer`
is visible: a successful load/reload of a non-empty manifest (trim count
`k ≥ 1`) creates the layers with only index 0 visible, and this
exactly-one-visible state is preserved by every number of `Advance`
(`nextFrame`) steps, for every sequence length. -/
theorem radar_C1 (k : Nat) (s : EngineState) (past : List Int) (hk : 1 ≤ k)
    (hp : past ≠ []) (steps : Nat) :
    visibleCount (nextFrame^[steps] (loadRainViewerSuccessWith k s past)) = 1 := by
  have hinv : posInv (nextFrame^[steps] (loadRainViewerSuccessWith k s past)) := by
    induction steps with
    | zero => simpa using posInv_load k s past hk hp
    | succ n ih =>
      rw [Function.iterate_succ_apply']
      exact posInv_nextFrame _ ih
  exact visibleCount_of_posInv _ hinv

/-- Witness for C1 at a concrete input: a 3-frame manifest, 4 advance
steps. -/
theorem radar_C1_witness :
    1 ≤ 3 ∧ ([10, 20, 30] : List Int) ≠ [] ∧
      visibleCount (nextFrame^[4] (loadRainViewerSuccessWith 3 initState [10, 20, 30])) = 1 :=
  ⟨by decide, by decide, radar_C1 3 initState [10, 20, 30] (by decide) (by decide) 4⟩

/-- C2: a failed manifest fetch leaves the overlay layers, their
visibility, the play position, the play flag and every animation timer
unchanged, and schedules exactly one reload retry with the 30-second
backoff delay (not the 5-minute refresh interval). -/
theorem radar_C2 (s : EngineState) :
    (loadRainViewerFailure s).radarLayers = s.radarLayers ∧
    (loadRainViewerFailure s).animationPosition = s.animationPosition ∧
    (loadRainViewerFailure s).isPlaying = s.isPlaying ∧
    (loadRainViewerFailure s).animationTimer = s.animationTimer ∧
    (loadRainViewerFailure s).activeIntervals = s.activeIntervals ∧
    (loadRainViewerFailure s).pendingRestarts = s.pendingRestarts ∧
    (loadRainViewerFailure s).pendingReloads =
      s.pendingReloads ++ [(s.nextTimerId, RETRY_DELAY)] ∧
    RETRY_DELAY = 30 * 1000 ∧ RETRY_DELAY ≠ REFRESH_INTERVAL :=
  ⟨rfl, rfl, rfl, rfl, rfl, rfl, rfl, rfl, by decide⟩

/-- C3: a successful load/reload of an `n`-frame manifest with trim count
`k ≥ 1` mounts exactly `min n k` overlay layers, whose frame times are the
last `min n k` manifest entries in their original upstream order; the
count never exceeds the trim count and is non-zero whenever `n > 0`, and
with the source's `FRAME_COUNT` the mounted count never exceeds
`FRAME_COUNT`. -/
theorem radar_C3 (k : Nat) (s : EngineState) (past : List Int) (hk : 1 ≤ k) :
    (loadRainViewerSuccessWith k s past).radarLayers.length = min past.length k ∧
    (loadRainViewerSuccessWith k s past).radarLayers.map OverlayLayer.time =
      past.drop (past.length - k) ∧
    (past ≠ [] → (loadRainViewerSuccessWith k s past).radarLayers ≠ []) ∧
    (loadRainViewerSuccess s past).radarLayers.length ≤ FRAME_COUNT := by
  have hlen : (loadRainViewerSuccessWith k s past).radarLayers.length = min past.length k := by
    rw [load_radarLayers, length_mkLayers, List.length_drop]
    omega
  refine ⟨hlen, ?_, ?_, ?_⟩
  · rw [load_radarLayers, map_time_mkLayers]
  · intro hp
    have h1 : 0 < past.length := List.length_pos.mpr hp
    have h2 : 0 < (loadRainViewerSuccessWith k s past).radarLayers.length := by
      rw [hlen]; omega
    exact List.length_pos.mp h2
  · rw [loadRainViewerSuccess, load_radarLayers, length_mkLayers, List.length_drop, FRAME_COUNT]
    omega

/-- Witness for C3 at a concrete input: trim count 2 on a 3-frame
manifest keeps the last two frames. -/
theorem radar_C3_witness :
    1 ≤ 2 ∧
      ((loadRainViewerSuccessWith 2 initState [10, 20, 30]).radarLayers.length =
          min ([10, 20, 30] : List Int).length 2 ∧
        (loadRainViewerSuccessWith 2 initState [10, 20, 30]).radarLayers.map OverlayLayer.time =
          ([10, 20, 30] : List Int).drop (([10, 20, 30] : List Int).length - 2) ∧
        (([10, 20, 30] : List Int) ≠ [] →
          (loadRainViewerSuccessWith 2 initState [10, 20, 30]).radarLayers ≠ []) ∧
        (loadRainViewerSuccess initState [10, 20, 30]).radarLayers.length ≤ FRAME_COUNT) :=
  ⟨by decide, radar_C3 2 initState [10, 20, 30] (by decide)⟩

/-- C4: on a non-empty sequence an `Advance` step sets the position to
`(positionIndex + 1) mod length`; on an empty sequence `Advance` changes
nothing at all. -/
theorem radar_C4 (s : EngineState) :
    (s.radarLayers ≠ [] →
      (nextFrame s).animationPosition = (s.animationPosition + 1) % s.radarLayers.length) ∧
    (s.radarLayers = [] → nextFrame s = s) := by
  constructor
  · intro h
    exact nextFrame_pos s (by simpa [List.length_eq_zero] using h)
  · intro h
    exact nextFrame_empty s (by simp [h])

/-- Witness for C4 at concrete inputs: position 0 of a 3-frame sequence
advances to 1, and an advance on the empty initial state is the
identity. -/
theorem radar_C4_witness :
    (nextFrame (loadRainViewerSuccessWith 3 initState [10, 20, 30])).animationPosition = 1 ∧
      nextFrame initState = initState :=
  ⟨((radar_C4 (loadRainViewerSuccessWith 3 initState [10, 20, 30])).1 (by decide)).trans
      (by decide),
    (radar_C4 initState).2 rfl⟩

/-- C6: the Play/Pause toggle never changes the overlay sequence, any
layer's visibility, or `positionIndex`; from Playing it clears the stored
advance interval, from Paused it starts a fresh advance interval, and a
pause-resume pair returns the sequence, visibility and position to exactly
what they were. -/
theorem radar_C6 (s : EngineState) :
    (togglePlayPause s).radarLayers = s.radarLayers ∧
    (togglePlayPause s).animationPosition = s.animationPosition ∧
    (togglePlayPause s).isPlaying = !s.isPlaying ∧
    (togglePlayPause s).pendingRestarts = s.pendingRestarts ∧
    (togglePlayPause s).activeIntervals =
      (if s.isPlaying then removeHandle s.activeIntervals s.animationTimer
        else s.activeIntervals ++ [s.nextTimerId]) ∧
    (togglePlayPause s).animationTimer =
      (if s.isPlaying then s.animationTimer else some s.nextTimerId) ∧
    (togglePlayPause (togglePlayPause s)).radarLayers = s.radarLayers ∧
    (togglePlayPause (togglePlayPause s)).animationPosition = s.animationPosition ∧
    (togglePlayPause (togglePlayPause s)).isPlaying = s.isPlaying := by
  cases hb : s.isPlaying <;>
    simp [togglePlayPause, startAdvanceTimer, hb]

/-- C10: for every successfully decoded scan, the `metadata=true` JSON
response carries the entire decoded `Level2Radar` object under `radar`
and a `stationName` equal to `stationId` (both the header ICAO). -/
theorem radar_C10 (r : Level2Radar) :
    (radarMetadataGET r).radar = r ∧
    (radarMetadataGET r).stationName = (radarMetadataGET r).stationId ∧
    (radarMetadataGET r).stationId = r.header.icao ∧
    (radarMetadataGET r).success = true :=
  ⟨rfl, rfl, rfl, rfl⟩

/-! ### Timer bookkeeping lemmas -/

theorem removeHandle_nil (h : Option Nat) : removeHandle [] h = [] := by
  cases h <;> rfl

theorem removeHandle_single (t : Nat) : removeHandle [t] (some t) = [] := by
  simp [removeHandle]

theorem removeHandle_of_inv (s : EngineState)
    (h : s.activeIntervals = [] ∨
      ∃ t, s.animationTimer = some t ∧ s.activeIntervals = [t]) :
    removeHandle s.activeIntervals s.animationTimer = [] := by
  rcases h with h | ⟨t, hat, hai⟩
  · rw [h]; exact removeHandle_nil _
  · rw [hai, hat]; exact removeHandle_single t

theorem list_singleton_of_mem_of_le_one {α : Type} {l : List α} {a : α}
    (h : a ∈ l) (hl : l.length ≤ 1) : l = [a] := by
  cases l with
  | nil => cases h
  | cons x xs =>
    cases xs with
    | nil =>
      have hx : a = x := by simpa using h
      simp [hx]
    | cons y ys =>
      exfalso
      simp [List.length_cons] at hl

theorem timerInv_reachSafe (s : EngineState) (hs : ReachSafe s) : timerInv s := by
  induction hs with
  | init => exact ⟨Or.inl rfl, Or.inl rfl, by decide, by decide⟩
  | @advance s tid htid hsub ih =>
    obtain ⟨ih1, ih2, ih3, ih4⟩ := ih
    rcases ih1 with hnil | ⟨t, hat, hai⟩
    · rw [hnil] at htid; cases htid
    · have hres : s.pendingRestarts = [] := by
        rcases ih2 with h | h
        · rw [h] at hai; simp at hai
        · exact h
      by_cases hL : s.radarLayers.length = 0
      · rw [nextFrame_empty s hL]
        exact ⟨Or.inr ⟨t, hat, hai⟩, Or.inr hres, by simp [hres], ih4⟩
      · by_cases hlast :
          (s.animationPosition + 1) % s.radarLayers.length = s.radarLayers.length - 1
        · obtain ⟨hAI, hPR⟩ := nextFrame_timers_last s hL hlast
          have hAI2 : (nextFrame s).activeIntervals = [] := by
            rw [hAI, hai, hat]; exact removeHandle_single t
          refine ⟨Or.inl hAI2, Or.inl hAI2, ?_, fun _ => hAI2⟩
          rw [hPR, hres]; simp
        · obtain ⟨hAI, hPR⟩ := nextFrame_timers_notlast s hL hlast
          refine ⟨Or.inr ⟨t, ?_, ?_⟩, Or.inr ?_, ?_, ?_⟩
          · rw [nextFrame_animationTimer]; exact hat
          · rw [hAI]; exact hai
          · rw [hPR]; exact hres
          · rw [hPR]; exact ih3
          · intro hp
            rw [nextFrame_isPlaying] at hp
            rw [hAI]
            exact ih4 hp
  | @restartFire s tid d hmem hsub ih =>
    obtain ⟨ih1, ih2, ih3, ih4⟩ := ih
    have hres : s.pendingRestarts = [(tid, d)] := list_singleton_of_mem_of_le_one hmem ih3
    have hintervals : s.activeIntervals = [] := by
      rcases ih2 with h | h
      · exact h
      · rw [h] at hmem; cases hmem
    cases hb : s.isPlaying
    · refine ⟨Or.inl ?_, Or.inl ?_, ?_, fun _ => ?_⟩ <;>
        simp [fireRestart, hb, hintervals, hres]
    · refine ⟨Or.inr ⟨s.nextTimerId, ?_, ?_⟩, Or.inr ?_, ?_, ?_⟩ <;>
        simp [fireRestart, startAdvanceTimer, hb, hintervals, hres]
  | @toggle s hg hsub ih =>
    obtain ⟨ih1, ih2, ih3, ih4⟩ := ih
    cases hb : s.isPlaying
    · have hintervals : s.activeIntervals = [] := ih4 hb
      refine ⟨Or.inr ⟨s.nextTimerId, ?_, ?_⟩, Or.inr ?_, ?_, ?_⟩ <;>
        simp [togglePlayPause, startAdvanceTimer, hb, hintervals, hg]
    · have hrm : removeHandle s.activeIntervals s.animationTimer = [] :=
        removeHandle_of_inv s ih1
      refine ⟨Or.inl ?_, Or.inl ?_, ?_, fun _ => ?_⟩ <;>
        simp [togglePlayPause, hb, hrm, hg]
  | @reloadOk s past hg hsub ih =>
    obtain ⟨ih1, ih2, ih3, ih4⟩ := ih
    cases hb : s.isPlaying
    · have hintervals : s.activeIntervals = [] := ih4 hb
      refine ⟨Or.inl ?_, Or.inl ?_, ?_, fun _ => ?_⟩ <;>
        simp [loadRainViewerSuccess, loadRainViewerSuccessWith, scheduleReload, hb,
          hintervals, hg]
    · have hrm : removeHandle s.activeIntervals s.animationTimer = [] :=
        removeHandle_of_inv s ih1
      refine ⟨Or.inr ⟨s.nextTimerId, ?_, ?_⟩, Or.inr ?_, ?_, ?_⟩ <;>
        simp [loadRainViewerSuccess, loadRainViewerSuccessWith, scheduleReload,
          startAdvanceTimer, hb, hrm, hg]
  | @reloadErr s hsub ih =>
    obtain ⟨ih1, ih2, ih3, ih4⟩ := ih
    exact ⟨ih1, ih2, ih3, ih4⟩

/-- Concrete engine state for the C5 witness: one loaded frame, playing,
so the next advance lands on the last index. -/
def c5State : EngineState := loadRainViewerSuccess initState [100]

/-- C5: an `Advance` step on a non-empty sequence cancels the advance
interval and appends exactly one pending restart timeout precisely when
the post-increment position is the last index; the requested restart delay
is `RESTART_DELAY - FRAME_DELAY`, which is non-positive here, so the
effective (clamped) delay is `0`, i.e. the restart fires immediately; and
a firing restart timeout re-arms the advance interval exactly when the
engine is still playing. -/
theorem radar_C5 (s u : EngineState) (tid : Nat) (h : s.radarLayers ≠ []) :
    (nextFrame s).pendingRestarts =
      s.pendingRestarts ++
        (if (s.animationPosition + 1) % s.radarLayers.length = s.radarLayers.length - 1 then
          [(s.nextTimerId, RESTART_DELAY - FRAME_DELAY)]
        else []) ∧
    (nextFrame s).activeIntervals =
      (if (s.animationPosition + 1) % s.radarLayers.length = s.radarLayers.length - 1 then
        removeHandle s.activeIntervals s.animationTimer
      else s.activeIntervals) ∧
    RESTART_DELAY - FRAME_DELAY ≤ 0 ∧
    effectiveDelay (RESTART_DELAY - FRAME_DELAY) = 0 ∧
    (fireRestart u tid).activeIntervals =
      u.activeIntervals ++ (if u.isPlaying then [u.nextTimerId] else []) ∧
    (fireRestart u tid).pendingRestarts = u.pendingRestarts.filter (fun p => p.1 != tid) := by
  have hL : ¬ s.radarLayers.length = 0 := by simpa [List.length_eq_zero] using h
  refine ⟨?_, ?_, by decide, by decide, ?_, ?_⟩
  · by_cases hlast :
      (s.animationPosition + 1) % s.radarLayers.length = s.radarLayers.length - 1
    · rw [if_pos hlast]
      exact (nextFrame_timers_last s hL hlast).2
    · rw [if_neg hlast]
      simpa using (nextFrame_timers_notlast s hL hlast).2
  · by_cases hlast :
      (s.animationPosition + 1) % s.radarLayers.length = s.radarLayers.length - 1
    · rw [if_pos hlast]
      exact (nextFrame_timers_last s hL hlast).1
    · rw [if_neg hlast]
      exact (nextFrame_timers_notlast s hL hlast).1
  · cases hb : u.isPlaying <;> simp [fireRestart, startAdvanceTimer, hb]
  · cases hb : u.isPlaying <;> simp [fireRestart, startAdvanceTimer, hb]

/-- Witness for C5 at a concrete input: one loaded frame (so the advance
lands on the last index), and a restart firing on the paused initial
state. -/
theorem radar_C5_witness :
    c5State.radarLayers ≠ [] ∧
      ((nextFrame c5State).pendingRestarts =
        c5State.pendingRestarts ++
          (if (c5State.animationPosition + 1) % c5State.radarLayers.length =
              c5State.radarLayers.length - 1 then
            [(c5State.nextTimerId, RESTART_DELAY - FRAME_DELAY)]
          else []) ∧
      (nextFrame c5State).activeIntervals =
        (if (c5State.animationPosition + 1) % c5State.radarLayers.length =
            c5State.radarLayers.length - 1 then
          removeHandle c5State.activeIntervals c5State.animationTimer
        else c5State.activeIntervals) ∧
      RESTART_DELAY - FRAME_DELAY ≤ 0 ∧
      effectiveDelay (RESTART_DELAY - FRAME_DELAY) = 0 ∧
      (fireRestart initState 0).activeIntervals =
        initState.activeIntervals ++ (if initState.isPlaying then [initState.nextTimerId] else []) ∧
      (fireRestart initState 0).pendingRestarts =
        initState.pendingRestarts.filter (fun p => p.1 != 0)) :=
  ⟨by decide, radar_C5 c5State initState 0 (by decide)⟩

/-- C7 fails on the code: from the initial state, load one frame, let the
advance interval fire (it clears itself and leaves the restart timeout
pending), then click Play/Pause twice; the second click starts a new
advance interval while the restart timeout is still pending, so a
reachable state has both an advance timer and a restart timer active at
once. -/
theorem radar_C7_counterexample :
    Reach badTrace ∧ badTrace.activeIntervals ≠ [] ∧ badTrace.pendingRestarts ≠ [] := by
  refine ⟨?_, by decide, by decide⟩
  exact Reach.toggle (Reach.toggle
    (Reach.advance 0 (by decide) (Reach.reloadOk [100] Reach.init)))

/-- C7 (amended): in every state reachable when Play/Pause clicks and
manifest load completions happen only while no restart timeout is pending,
at most one of the advance interval and the restart timeout is active —
never both. -/
theorem radar_C7_amended (s : EngineState) (hs : ReachSafe s) :
    s.activeIntervals.length + s.pendingRestarts.length ≤ 1 := by
  obtain ⟨h1, h2, h3, h4⟩ := timerInv_reachSafe s hs
  rcases h1 with h1 | ⟨t, hat, hai⟩
  · rw [h1]
    simpa using h3
  · rcases h2 with h2 | h2
    · rw [h2] at hai; simp at hai
    · rw [hai, h2]
      simp

/-- Witness for C7 (amended) at a concrete reachable state: the state
right after the initial successful load. -/
theorem radar_C7_witness :
    (loadRainViewerSuccess initState [5]).activeIntervals.length +
        (loadRainViewerSuccess initState [5]).pendingRestarts.length ≤ 1 :=
  radar_C7_amended (loadRainViewerSuccess initState [5])
    (ReachSafe.reloadOk [5] rfl ReachSafe.init)

/-- C8: the bounds are symmetric about the station, over the idealised
real-number semantics of the source's double arithmetic:
`maxLat - lat = lat - minLat` and `maxLon - lon = lon - minLon`. -/
theorem radar_C8 (lat lon r : ℝ) (h1 : -90 < lat) (h2 : lat < 90) (hr : 0 < r) :
    (calculateRadarBounds lat lon r).2.2 - lat = lat - (calculateRadarBounds lat lon r).1.2 ∧
    (calculateRadarBounds lat lon r).2.1 - lon = lon - (calculateRadarBounds lat lon r).1.1 := by
  constructor <;> simp [calculateRadarBounds]

/-- Witness for C8 at the concrete input `(0, 0, 230)`. -/
theorem radar_C8_witness :
    (-90 : ℝ) < 0 ∧ (0 : ℝ) < 90 ∧ (0 : ℝ) < 230 ∧
      ((calculateRadarBounds 0 0 230).2.2 - 0 = 0 - (calculateRadarBounds 0 0 230).1.2 ∧
        (calculateRadarBounds 0 0 230).2.1 - 0 = 0 - (calculateRadarBounds 0 0 230).1.1) :=
  ⟨by norm_num, by norm_num, by norm_num,
    radar_C8 0 0 230 (by norm_num) (by norm_num) (by norm_num)⟩

/-- C9 as stated is false at its own input: at `(0, 0, 230)` the offset is
`230 / 111.32 = 2.06611…`, so `minLat` lies strictly below `-2.066` and
its decimal expansion cannot begin `-2.0659`. -/
theorem radar_C9_counterexample :
    (calculateRadarBounds 0 0 230).1.2 < -2.066 ∧
      ¬ (-2.066 ≤ (calculateRadarBounds 0 0 230).1.2 ∧
        (calculateRadarBounds 0 0 230).1.2 ≤ -2.0659) := by
  have hlt : (calculateRadarBounds 0 0 230).1.2 < -2.066 := by
    simp only [calculateRadarBounds]
    norm_num
  exact ⟨hlt, fun hc => absurd hc.1 (not_le.mpr hlt)⟩

/-- C9 (amended): `computeBounds(0, 0, 230)` returns
`minLat = minLon = -(230 / 111.32) ≈ -2.0661…` and
`maxLat = maxLon = 230 / 111.32 ≈ 2.0661…`, and the longitude span is
exactly the latitude span since `cos 0 = 1`. -/
theorem radar_C9_amended :
    (calculateRadarBounds 0 0 230).1.2 = -(230 / 111.32) ∧
    (calculateRadarBounds 0 0 230).2.2 = 230 / 111.32 ∧
    (calculateRadarBounds 0 0 230).1.1 = -(230 / 111.32) ∧
    (calculateRadarBounds 0 0 230).2.1 = 230 / 111.32 ∧
    (2.0661 : ℝ) < 230 / 111.32 ∧ (230 / 111.32 : ℝ) < 2.0662 ∧
    (calculateRadarBounds 0 0 230).2.1 - (calculateRadarBounds 0 0 230).1.1 =
      (calculateRadarBounds 0 0 230).2.2 - (calculateRadarBounds 0 0 230).1.2 := by
  have hcos : Real.cos (0 * Real.pi / 180) = 1 := by
    norm_num [Real.cos_zero]
  refine ⟨?_, ?_, ?_, ?_, by norm_num, by norm_num, ?_⟩ <;>
    simp [calculateRadarBounds, hcos]
